import Mathlib

/-!
Verification of the analytic core of src/ecflow/spt_extract_plain_table.py
(function extract_summary_table and its helpers), formalised as a shallow
embedding: flow values and thresholds are rationals, timestamps are integers
(minutes since an epoch, so the 3-hour grid step is 180), Python exceptions
are an explicit error type, and the per-reach / per-timestamp loops are
structural recursion over lists.
-/

/-- One row of the per-reach return-period table rp_df (lines 64-74 of the
source): the six return-period thresholds looked up by
rp_df.loc[comid, ...]. -/
structure RpRow where
  return_2 : ℚ
  return_5 : ℚ
  return_10 : ℚ
  return_25 : ℚ
  return_50 : ℚ
  return_100 : ℚ
deriving DecidableEq, Repr

/-- Lines 131-138: the color chain.
if f_mean > return_50 then purple elif f_mean > return_10 then red
elif f_mean > return_2 then yellow else blue. -/
def colorOf (f_mean : ℚ) (rp : RpRow) : String :=
  if f_mean > rp.return_50 then "purple"
  else if f_mean > rp.return_10 then "red"
  else if f_mean > rp.return_2 then "yellow"
  else "blue"

/-- Lines 143-154: the thickness chain over flow magnitude bands.
Python chained comparisons such as 20 <= f_mean < 250 are conjunctions. -/
def thicknessOf (f_mean : ℚ) : String :=
  if f_mean < 20 then "1"
  else if 20 ≤ f_mean ∧ f_mean < 250 then "2"
  else if 250 ≤ f_mean ∧ f_mean < 1500 then "3"
  else if 1500 ≤ f_mean ∧ f_mean < 10000 then "4"
  else if 10000 ≤ f_mean ∧ f_mean < 30000 then "5"
  else "6"

/-- Lines 159-172: the return-period chain, highest threshold first. -/
def retPerOf (f_mean : ℚ) (rp : RpRow) : String :=
  if f_mean > rp.return_100 then "100"
  else if f_mean > rp.return_50 then "50"
  else if f_mean > rp.return_25 then "25"
  else if f_mean > rp.return_10 then "10"
  else if f_mean > rp.return_5 then "5"
  else if f_mean > rp.return_2 then "2"
  else "0"

/-- Lines 126-174: the classification loop. Starting from three empty lists
(colors, thicknesses, ret_pers), one pass over int_mean appends exactly one
color, one thickness and one return-period label per interpolated mean. -/
def classifyLoop (rp : RpRow) : List ℚ → List String × List String × List String
  | [] => ([], [], [])
  | f_mean :: rest =>
      let (cs, ts, rs) := classifyLoop rp rest
      (colorOf f_mean rp :: cs, thicknessOf f_mean :: ts, retPerOf f_mean rp :: rs)

/-- Severity ordinal of a color string: blue < yellow < red < purple. -/
def colorOrd : String → ℕ
  | "blue" => 0
  | "yellow" => 1
  | "red" => 2
  | "purple" => 3
  | _ => 0

/-- Severity ordinal of a thickness string. -/
def thickOrd : String → ℕ
  | "1" => 1
  | "2" => 2
  | "3" => 3
  | "4" => 4
  | "5" => 5
  | "6" => 6
  | _ => 0

/-- Severity ordinal of a return-period label. -/
def retOrd : String → ℕ
  | "0" => 0
  | "2" => 1
  | "5" => 2
  | "10" => 3
  | "25" => 4
  | "50" => 5
  | "100" => 6
  | _ => 0

example : colorOf 5 ⟨1, 2, 3, 4, 10, 20⟩ = "red" := by decide
example : thicknessOf 20 = "2" := by decide
example : retPerOf 5 ⟨1, 2, 3, 4, 10, 20⟩ = "25" := by decide

/-- Lines 89-93: interp_x = pd.date_range from the first to the last original
timestamp at a fixed 3-hour frequency. Timestamps are minutes since an epoch
(the source formats them to minute precision before building the range), so
the step is 180; the range holds start, start+180, start+360, ... for every
point not exceeding stop, and is empty when stop is before start. -/
def interp_x (start stop : ℤ) : List ℤ :=
  if start ≤ stop then
    (List.range (((stop - start) / 180).toNat + 1)).map (fun (k : ℕ) => start + 180 * (k : ℤ))
  else []

/-- One row of summary_table_df (line 117): columns comid, timestamp, max,
mean, color, thickness, ret_per. -/
structure Row where
  comid : ℤ
  timestamp : String
  max : ℚ
  mean : ℚ
  color : String
  thickness : String
  ret_per : String
deriving DecidableEq, Repr

/-- The two-decimal rounding applied by Series.round on lines 181-182.
Stands in for the float rounding of pandas; the half-way tie direction
(half-even there, half-up here) is irrelevant to every claim below. -/
def round2 (q : ℚ) : ℚ :=
  (⌊100 * q + 1 / 2⌋ : ℚ) / 100

/-- Lines 177-187: the per-site DataFrame. The comid column is built from
the list comprehension on line 179, whose loop variable shadows the reach
identifier comid of the enclosing scope: the column holds 0, 1, ...,
len(new_dates) - 1, not the reach identifier. All seven Series have the
grid length at the call site, so the getD defaults are never taken. -/
def site_summary (comid : ℤ) (new_dates : List String) (int_max int_mean : List ℚ)
    (colors thicknesses ret_pers : List String) : List Row :=
  (List.range new_dates.length).map (fun (i : ℕ) =>
    { comid := (i : ℤ)
      timestamp := new_dates.getD i ""
      max := round2 (int_max.getD i 0)
      mean := round2 (int_mean.getD i 0)
      color := colors.getD i ""
      thickness := thicknesses.getD i ""
      ret_per := ret_pers.getD i "" })

/-- The Python exceptions that can escape the assembly code into the
run-level handler on line 193. -/
inductive PyError where
  | valueError
  | keyError
  | indexError
deriving DecidableEq, Repr

/-- The four-list zip on line 119. Python zip truncates to the shortest
input. -/
def zip4 {α β γ δ : Type} : List α → List β → List γ → List δ → List (α × β × γ × δ)
  | a :: as, b :: bs, c :: cs, d :: ds => (a, b, c, d) :: zip4 as bs cs ds
  | _, _, _, _ => []

/-- Lines 117-188: the site loop building summary_table_df. The loop header
on line 119 reads

  for index, comid, date, maxes, means in enumerate(zip(comids, new_dates, maxlist, meanlist)):

and enumerate(zip(...)) yields pairs (index, (comid, date, maxes, means));
unpacking such a pair into five targets raises ValueError on the first
iteration, before the body ever runs. So the loop leaves summary_table_df
empty when the zip is empty and raises ValueError otherwise. -/
def assembleRows (comids : List ℤ) (new_dates : List String)
    (maxlist meanlist : List (List ℚ)) : Except PyError (List Row) :=
  match zip4 comids new_dates maxlist meanlist with
  | [] => Except.ok []
  | _ :: _ => Except.error PyError.valueError

/-- Lines 77-194: the analytic core of extract_summary_table, from the point
where comids, the original timestamps and the per-reach max and mean sample
lists have been read. Returns the rows written to the csv on line 190, or
none when an exception reached the handler on line 193 (the function then
logs the exception, writes no file, and returns None). Indexing dates[0] or
dates[-1] on an empty dates list raises IndexError; toString stands in for
the strftime formatting of grid timestamps, which no claim inspects. The
dt_dates and rp_df inputs feed the pchip interpolators and the threshold
lookups of the loop body, which the ValueError on line 119 makes
unreachable. -/
def extract_summary_table_core (comids : List ℤ) (dates : List ℤ)
    (maxlist meanlist : List (List ℚ)) (rp_df : ℤ → Option RpRow) : Option (List Row) :=
  match dates.head?, dates.getLast? with
  | some d0, some dlast =>
      match assembleRows comids ((interp_x d0 dlast).map toString) maxlist meanlist with
      | Except.ok rows => some rows
      | Except.error _ => none
  | _, _ => none

/-- The list of grid timestamps a run over the given original timestamps
works with: interp_x from the first to the last original timestamp. -/
def gridDates (dates : List ℤ) : List ℤ :=
  match dates.head?, dates.getLast? with
  | some d0, some dlast => interp_x d0 dlast
  | _, _ => []

example : interp_x 0 300 = [0, 180] := by decide
example : extract_summary_table_core [101] [0, 60, 300] [[1, 2, 3]] [[1, 2, 3]]
    (fun _ => some ⟨10, 20, 100, 500, 1000, 5000⟩) = none := by rfl
example : extract_summary_table_core [] [0, 60, 300] [] [] (fun _ => none) = some [] := by rfl

/-- C4 counterexample: with the thresholds (0, 0, 5, 5, 5, 5), which satisfy
the monotone invariant, a mean exactly equal to return_50 = 5 is classified
yellow, not red: the strict tests on return_50 and return_10 = 5 both fail,
so the claim that a mean equal to return_50 always yields red is false. -/
theorem color_at_return50_counterexample :
    (5 : ℚ) = (RpRow.mk 0 0 5 5 5 5).return_50 ∧
    colorOf 5 (RpRow.mk 0 0 5 5 5 5) = "yellow" ∧
    colorOf 5 (RpRow.mk 0 0 5 5 5 5) ≠ "red" := by
  decide

/-- C4 (amended): the color chain is purple iff mean is strictly above
return_50; otherwise red iff strictly above return_10; otherwise yellow iff
strictly above return_2; otherwise blue. A mean exactly equal to return_50
is never purple, and is red provided return_10 is strictly below
return_50. -/
theorem color_chain_spec (m : ℚ) (rp : RpRow) :
    (colorOf m rp = "purple" ↔ rp.return_50 < m) ∧
    (¬ rp.return_50 < m → (colorOf m rp = "red" ↔ rp.return_10 < m)) ∧
    (¬ rp.return_50 < m → ¬ rp.return_10 < m →
      (colorOf m rp = "yellow" ↔ rp.return_2 < m)) ∧
    (¬ rp.return_50 < m → ¬ rp.return_10 < m → ¬ rp.return_2 < m →
      colorOf m rp = "blue") ∧
    (m = rp.return_50 → colorOf m rp ≠ "purple") ∧
    (rp.return_10 < rp.return_50 → m = rp.return_50 → colorOf m rp = "red") := by
  unfold colorOf
  split_ifs with h1 h2 h3 <;>
    refine ⟨?_, ?_, ?_, ?_, ?_, ?_⟩ <;>
      simp_all <;> try (intros; linarith)

/-- Witness for color_chain_spec at mean 5 against thresholds
(0, 0, 3, 4, 10, 20). -/
theorem color_chain_spec_witness :
    colorOf 5 (RpRow.mk 0 0 3 4 10 20) = "red" :=
  ((color_chain_spec 5 (RpRow.mk 0 0 3 4 10 20)).2.1 (by norm_num)).mpr (by norm_num)

/-- C5: the return-period chain tests the six thresholds from return_100
down to return_2 with strict comparisons, first match wins, and yields 0
when none is exceeded. -/
theorem ret_per_chain_spec (m : ℚ) (rp : RpRow) :
    (retPerOf m rp = "100" ↔ rp.return_100 < m) ∧
    (¬ rp.return_100 < m → (retPerOf m rp = "50" ↔ rp.return_50 < m)) ∧
    (¬ rp.return_100 < m → ¬ rp.return_50 < m →
      (retPerOf m rp = "25" ↔ rp.return_25 < m)) ∧
    (¬ rp.return_100 < m → ¬ rp.return_50 < m → ¬ rp.return_25 < m →
      (retPerOf m rp = "10" ↔ rp.return_10 < m)) ∧
    (¬ rp.return_100 < m → ¬ rp.return_50 < m → ¬ rp.return_25 < m →
      ¬ rp.return_10 < m → (retPerOf m rp = "5" ↔ rp.return_5 < m)) ∧
    (¬ rp.return_100 < m → ¬ rp.return_50 < m → ¬ rp.return_25 < m →
      ¬ rp.return_10 < m → ¬ rp.return_5 < m →
      (retPerOf m rp = "2" ↔ rp.return_2 < m)) ∧
    (¬ rp.return_100 < m → ¬ rp.return_50 < m → ¬ rp.return_25 < m →
      ¬ rp.return_10 < m → ¬ rp.return_5 < m → ¬ rp.return_2 < m →
      retPerOf m rp = "0") := by
  unfold retPerOf
  split_ifs with h1 h2 h3 h4 h5 h6 <;>
    refine ⟨?_, ?_, ?_, ?_, ?_, ?_, ?_⟩ <;>
      simp_all <;> try (intros; linarith)

/-- Witness for ret_per_chain_spec at mean 5 against thresholds
(1, 2, 3, 4, 10, 20): the label is 25. -/
theorem ret_per_chain_spec_witness :
    retPerOf 5 (RpRow.mk 1 2 3 4 10 20) = "25" :=
  ((ret_per_chain_spec 5 (RpRow.mk 1 2 3 4 10 20)).2.2.1 (by norm_num) (by norm_num)).mpr
    (by norm_num)

/-- C6: the thickness bands are left-inclusive and right-exclusive, and a
mean of exactly 20 falls in band 2, not band 1. -/
theorem thickness_bands_spec :
    (∀ m : ℚ,
      (thicknessOf m = "1" ↔ m < 20) ∧
      (thicknessOf m = "2" ↔ 20 ≤ m ∧ m < 250) ∧
      (thicknessOf m = "3" ↔ 250 ≤ m ∧ m < 1500) ∧
      (thicknessOf m = "4" ↔ 1500 ≤ m ∧ m < 10000) ∧
      (thicknessOf m = "5" ↔ 10000 ≤ m ∧ m < 30000) ∧
      (thicknessOf m = "6" ↔ 30000 ≤ m)) ∧
    thicknessOf 20 = "2" := by
  refine ⟨fun m => ?_, by decide⟩
  unfold thicknessOf
  split_ifs with h1 h2 h3 h4 h5 <;>
    refine ⟨?_, ?_, ?_, ?_, ?_, ?_⟩ <;>
      simp_all <;> try (intros; linarith)

/-- Raising the mean never lowers the color severity ordinal. -/
lemma colorOrd_mono (m1 m2 : ℚ) (rp : RpRow) (h : m1 ≤ m2) :
    colorOrd (colorOf m1 rp) ≤ colorOrd (colorOf m2 rp) := by
  unfold colorOf
  split_ifs <;> first | decide | (exfalso; linarith)

/-- Raising the mean never lowers the thickness band ordinal. -/
lemma thickOrd_mono (m1 m2 : ℚ) (h : m1 ≤ m2) :
    thickOrd (thicknessOf m1) ≤ thickOrd (thicknessOf m2) := by
  unfold thicknessOf
  split_ifs <;>
    first
      | decide
      | (exfalso; linarith)
      | (exfalso; simp only [not_and_or, not_lt, not_le] at *
         casesm* _ ∨ _ <;> linarith)

/-- Raising the mean never lowers the return-period label ordinal. -/
lemma retOrd_mono (m1 m2 : ℚ) (rp : RpRow) (h : m1 ≤ m2) :
    retOrd (retPerOf m1 rp) ≤ retOrd (retPerOf m2 rp) := by
  unfold retPerOf
  split_ifs <;> first | decide | (exfalso; linarith)

/-- C7: with thresholds fixed and monotone in the return period, a larger
mean never gets a smaller severity ordinal for color, thickness, or
return-period label. -/
theorem severity_monotone (m1 m2 : ℚ) (rp : RpRow) (h : m1 ≤ m2)
    (h2_5 : rp.return_2 ≤ rp.return_5) (h5_10 : rp.return_5 ≤ rp.return_10)
    (h10_25 : rp.return_10 ≤ rp.return_25) (h25_50 : rp.return_25 ≤ rp.return_50)
    (h50_100 : rp.return_50 ≤ rp.return_100) :
    colorOrd (colorOf m1 rp) ≤ colorOrd (colorOf m2 rp) ∧
    thickOrd (thicknessOf m1) ≤ thickOrd (thicknessOf m2) ∧
    retOrd (retPerOf m1 rp) ≤ retOrd (retPerOf m2 rp) :=
  ⟨colorOrd_mono m1 m2 rp h, thickOrd_mono m1 m2 h, retOrd_mono m1 m2 rp h⟩

/-- Witness for severity_monotone at means 15 and 600 against the thresholds
(10, 20, 100, 500, 1000, 5000). -/
theorem severity_monotone_witness :
    colorOrd (colorOf 15 (RpRow.mk 10 20 100 500 1000 5000)) ≤
      colorOrd (colorOf 600 (RpRow.mk 10 20 100 500 1000 5000)) ∧
    thickOrd (thicknessOf 15) ≤ thickOrd (thicknessOf 600) ∧
    retOrd (retPerOf 15 (RpRow.mk 10 20 100 500 1000 5000)) ≤
      retOrd (retPerOf 600 (RpRow.mk 10 20 100 500 1000 5000)) :=
  severity_monotone 15 600 (RpRow.mk 10 20 100 500 1000 5000) (by norm_num)
    (by norm_num) (by norm_num) (by norm_num) (by norm_num) (by norm_num)

/-- Membership in the 3-hour grid: exactly the offsets of whole multiples of
180 minutes from the start that do not pass the end. -/
lemma interp_x_mem (s e x : ℤ) (hse : s ≤ e) :
    x ∈ interp_x s e ↔ ∃ k : ℕ, x = s + 180 * k ∧ x ≤ e := by
  unfold interp_x
  rw [if_pos hse, List.mem_map]
  constructor
  · rintro ⟨a, ha, rfl⟩
    rw [List.mem_range] at ha
    exact ⟨a, rfl, by omega⟩
  · rintro ⟨k, rfl, hle⟩
    exact ⟨k, List.mem_range.mpr (by omega), rfl⟩

/-- The grid starts at the first original timestamp. -/
lemma interp_x_head (s e : ℤ) (hse : s ≤ e) : (interp_x s e).head? = some s := by
  unfold interp_x
  rw [if_pos hse, List.range_succ_eq_map]
  simp

/-- Consecutive grid points are exactly 180 minutes apart. -/
lemma interp_x_chain (s e : ℤ) :
    List.Chain' (fun a b => b = a + 180) (interp_x s e) := by
  unfold interp_x
  split
  · rw [List.chain'_map, List.chain'_range_succ]
    intro m _
    push_cast
    ring
  · exact List.chain'_nil

/-- C8: for any start and end with start not after end, the grid built by
interp_x begins at start, advances in steps of exactly 3 hours, consists of
precisely the multiples of 3 hours from start that do not exceed end, and
contains end itself exactly when end minus start is a whole multiple of 3
hours; on the spec example (offsets 0, 60 and 300 minutes) the grid is the
two points 0 and 180. -/
theorem grid_3h_spec :
    (∀ s e : ℤ, s ≤ e →
      (interp_x s e).head? = some s ∧
      List.Chain' (fun a b => b = a + 180) (interp_x s e) ∧
      (∀ x : ℤ, x ∈ interp_x s e ↔ ∃ k : ℕ, x = s + 180 * k ∧ x ≤ e) ∧
      (e ∈ interp_x s e ↔ (180 : ℤ) ∣ e - s)) ∧
    interp_x 0 300 = [0, 180] := by
  refine ⟨fun s e hse => ⟨interp_x_head s e hse, interp_x_chain s e,
    fun x => interp_x_mem s e x hse, ?_⟩, by decide⟩
  rw [interp_x_mem s e e hse]
  constructor
  · rintro ⟨k, hk, -⟩
    exact ⟨(k : ℤ), by omega⟩
  · rintro ⟨c, hc⟩
    have hc0 : 0 ≤ c := by omega
    exact ⟨c.toNat, by omega, le_refl e⟩

/-- Witness for grid_3h_spec: the grid over the example range starts at 0. -/
theorem grid_3h_spec_witness : (interp_x 0 300).head? = some 0 :=
  (grid_3h_spec.1 0 300 (by norm_num)).1

/-- Equation lemma for one step of the classification loop. -/
lemma classifyLoop_cons (rp : RpRow) (m : ℚ) (rest : List ℚ) :
    classifyLoop rp (m :: rest) =
      (colorOf m rp :: (classifyLoop rp rest).1,
       thicknessOf m :: (classifyLoop rp rest).2.1,
       retPerOf m rp :: (classifyLoop rp rest).2.2) := rfl

/-- C10: the classification pass is total. For any threshold row and any
list of interpolated means, including negative or zero values, the loop
produces exactly one color, one thickness and one return-period label per
mean, so the three result lists have the length of the mean list; and each
chain always lands in one of its enumerated outcomes. -/
theorem classifier_totality :
    ∀ (rp : RpRow) (means : List ℚ),
      ((classifyLoop rp means).1.length = means.length ∧
       (classifyLoop rp means).2.1.length = means.length ∧
       (classifyLoop rp means).2.2.length = means.length) ∧
      ∀ m : ℚ,
        (colorOf m rp = "purple" ∨ colorOf m rp = "red" ∨
         colorOf m rp = "yellow" ∨ colorOf m rp = "blue") ∧
        (thicknessOf m = "1" ∨ thicknessOf m = "2" ∨ thicknessOf m = "3" ∨
         thicknessOf m = "4" ∨ thicknessOf m = "5" ∨ thicknessOf m = "6") ∧
        (retPerOf m rp = "100" ∨ retPerOf m rp = "50" ∨ retPerOf m rp = "25" ∨
         retPerOf m rp = "10" ∨ retPerOf m rp = "5" ∨ retPerOf m rp = "2" ∨
         retPerOf m rp = "0") := by
  intro rp means
  constructor
  · induction means with
    | nil => exact ⟨rfl, rfl, rfl⟩
    | cons m rest ih =>
        rw [classifyLoop_cons]
        simpa using ih
  · intro m
    refine ⟨?_, ?_, ?_⟩
    · unfold colorOf
      split_ifs <;> simp
    · unfold thicknessOf
      split_ifs <;> simp
    · unfold retPerOf
      split_ifs <;> simp

/-- C1 counterexample: a run over two reaches, 101 with a single raw sample
(insufficient for interpolation) and 102 with three valid samples, writes no
output at all; reach 102 therefore contributes none of its 2 grid rows,
contradicting the claim that a malformed reach is skipped alone while every
remaining valid reach still contributes its complete set of rows. -/
theorem reach_failure_not_contained :
    extract_summary_table_core [101, 102] [0, 60, 300] [[7], [1, 2, 3]] [[7], [1, 2, 3]]
      (fun _ => some (RpRow.mk 10 20 100 500 1000 5000)) = none ∧
    (gridDates [0, 60, 300]).length = 2 := by
  exact ⟨rfl, rfl⟩

/-- C1 (amended): no reach is ever skipped individually. Whenever the run
has at least one reach, at least one grid timestamp and non-empty max and
mean sample lists, the site loop raises on its first iteration, the
run-level handler catches the exception, and the run writes no output, so
no reach, valid or malformed, contributes any rows. -/
theorem run_aborts_for_all_reaches :
    ∀ (comids dates : List ℤ) (maxlist meanlist : List (List ℚ))
      (rp_df : ℤ → Option RpRow) (d0 dlast : ℤ),
      dates.head? = some d0 → dates.getLast? = some dlast → d0 ≤ dlast →
      comids ≠ [] → maxlist ≠ [] → meanlist ≠ [] →
      extract_summary_table_core comids dates maxlist meanlist rp_df = none := by
  intro comids dates maxlist meanlist rp_df d0 dlast h0 hl hle hc hma hme
  obtain ⟨c, cs, rfl⟩ : ∃ y ys, comids = y :: ys := by
    cases comids with
    | nil => exact absurd rfl hc
    | cons y ys => exact ⟨y, ys, rfl⟩
  obtain ⟨ma, mas, rfl⟩ : ∃ y ys, maxlist = y :: ys := by
    cases maxlist with
    | nil => exact absurd rfl hma
    | cons y ys => exact ⟨y, ys, rfl⟩
  obtain ⟨me, mes, rfl⟩ : ∃ y ys, meanlist = y :: ys := by
    cases meanlist with
    | nil => exact absurd rfl hme
    | cons y ys => exact ⟨y, ys, rfl⟩
  obtain ⟨g, gs, hg⟩ : ∃ y ys, interp_x d0 dlast = y :: ys := by
    have hh := interp_x_head d0 dlast hle
    cases hx : interp_x d0 dlast with
    | nil => rw [hx] at hh; exact absurd hh (by simp)
    | cons y ys => exact ⟨y, ys, rfl⟩
  unfold extract_summary_table_core
  rw [h0, hl]
  dsimp only
  rw [hg]
  simp [assembleRows, zip4]

/-- Witness for run_aborts_for_all_reaches on a one-reach run with two valid
samples. -/
theorem run_aborts_for_all_reaches_witness :
    extract_summary_table_core [7] [0, 120] [[1, 2]] [[3, 4]] (fun _ => none) = none :=
  run_aborts_for_all_reaches [7] [0, 120] [[1, 2]] [[3, 4]] (fun _ => none) 0 120
    rfl rfl (by norm_num) (by simp) (by simp) (by simp)

/-- C2: in a site block built for reach 101 over a two-point grid, the comid
column holds the row indices 0 and 1, not the reach identifier 101: the list
comprehension on line 179 iterates a variable named comid over
range(len(new_dates)), shadowing the reach identifier. -/
theorem comid_column_holds_row_index :
    (site_summary 101 ["11/12/19 00:00", "11/12/19 03:00"] [3, 4] [1, 2]
        ["blue", "blue"] ["1", "1"] ["0", "0"]).map (fun r => r.comid) = [0, 1] ∧
    (site_summary 101 ["11/12/19 00:00", "11/12/19 03:00"] [3, 4] [1, 2]
        ["blue", "blue"] ["1", "1"] ["0", "0"]).map (fun r => r.comid) ≠ [101, 101] := by
  decide

/-- C3: a fully valid single-reach run (strictly increasing timestamps,
three samples, thresholds present for the reach) produces no output rather
than the claimed 1 x 2 = 2 rows: the loop header of line 119 raises
ValueError before any row is assembled and the handler returns None. -/
theorem valid_run_emits_no_rows :
    extract_summary_table_core [101] [0, 60, 300] [[1, 2, 3]] [[1, 2, 3]]
      (fun _ => some (RpRow.mk 10 20 100 500 1000 5000)) = none ∧
    (gridDates [0, 60, 300]).length = 2 := by
  exact ⟨rfl, rfl⟩

/-- Any table the run actually writes is empty: the only way the site loop
terminates without raising is for the zip to be empty, leaving
summary_table_df with no rows. -/
lemma extract_core_ok_empty :
    ∀ (comids dates : List ℤ) (maxlist meanlist : List (List ℚ))
      (rp_df : ℤ → Option RpRow) (rows : List Row),
      extract_summary_table_core comids dates maxlist meanlist rp_df = some rows →
      rows = [] := by
  intro comids dates maxlist meanlist rp_df rows h
  unfold extract_summary_table_core at h
  split at h
  · rename_i d0 dlast heq
    split at h
    · rename_i rows' heq'
      unfold assembleRows at heq'
      split at heq'
      · cases heq'
        cases h
        rfl
      · cases heq'
    · cases h
  · cases h

/-- C9: the written output never holds a partial block: whenever the run
writes a table, every reach contributes either no rows or exactly one row
per grid timestamp, and a run that fails mid-assembly writes nothing at
all (the csv write on line 190 sits after the whole loop, inside the try
block). -/
theorem rows_all_or_nothing :
    ∀ (comids dates : List ℤ) (maxlist meanlist : List (List ℚ))
      (rp_df : ℤ → Option RpRow) (rows : List Row),
      extract_summary_table_core comids dates maxlist meanlist rp_df = some rows →
      ∀ c : ℤ,
        (rows.filter (fun r => r.comid == c)).length = 0 ∨
        (rows.filter (fun r => r.comid == c)).length = (gridDates dates).length := by
  intro comids dates maxlist meanlist rp_df rows h c
  rw [extract_core_ok_empty comids dates maxlist meanlist rp_df rows h]
  exact Or.inl rfl

/-- Witness for rows_all_or_nothing on a run with no reaches, which
succeeds and writes an empty table. -/
theorem rows_all_or_nothing_witness :
    (([] : List Row).filter (fun r => r.comid == 101)).length = 0 ∨
    (([] : List Row).filter (fun r => r.comid == 101)).length =
      (gridDates [0, 60, 300]).length :=
  rows_all_or_nothing [] [0, 60, 300] [] [] (fun _ => none) [] rfl 101
